import Mathlib

/-!
Verification of the event-link personalization pipeline core.

Shallow embedding of `backend/app/task_queue.py`,
`backend/scripts/recompute_recommendations_ml.py` and the online-learning
section of `backend/app/api.py`.  Timestamps are modelled as integers
(epoch seconds), SQL tables as lists of rows, JSON metadata as the
structure of the keys the embedded code actually reads, and floating
point as `ℚ` where the code only does field arithmetic and as `ℝ` where
it calls `exp`/`log`.
-/

/-- Job lifecycle status (`background_jobs.status`). -/
inductive JobStatus
  | queued
  | running
  | succeeded
  | failed
deriving DecidableEq

/-- Job payload: the keys of the JSON payload that the embedded handlers
read (`top_n`, `user_id`, `skip_training`, `model_version`). -/
structure Payload where
  top_n : Option Int := none
  user_id : Option Int := none
  skip_training : Bool := false
  model_version : Option String := none
deriving DecidableEq

/-- A row of the `background_jobs` table (`models.BackgroundJob` plus the
`dedupe_key` column added by migration 0019). -/
structure BackgroundJob where
  id : Nat
  job_type : String
  payload : Payload
  status : JobStatus
  attempts : Nat
  max_attempts : Nat
  run_at : Int
  locked_at : Option Int := none
  locked_by : Option String := none
  last_error : Option String := none
  dedupe_key : Option String := none
  created_at : Int := 0
  finished_at : Option Int := none
deriving DecidableEq

/-- The `background_jobs` table together with the id autoincrement counter. -/
structure JobStore where
  jobs : List BackgroundJob
  nextId : Nat
deriving DecidableEq

/-- Python `a or b` on a nonnegative integer setting (`0`/`None` falls back
to the default), as in `job.max_attempts or settings.task_queue_max_attempts`. -/
def pyOrNat (n : Nat) (dflt : Nat) : Nat :=
  if n = 0 then dflt else n

/-- Does the table already hold a row with this exact `(job_type, dedupe_key)`
pair?  This is `uq_background_job_dedupe_key` (migration 0019); SQL `NULL`
keys never conflict. -/
def hasDedupePair (jobs : List BackgroundJob) (jt : String) (k : String) : Bool :=
  jobs.any (fun j => j.job_type == jt && j.dedupe_key == some k)

/-- One step of `ORDER BY id DESC ... first()`: keep the higher-id row. -/
def jobMaxIdStep (acc : Option BackgroundJob) (j : BackgroundJob) :
    Option BackgroundJob :=
  match acc with
  | none => some j
  | some m => if m.id ≤ j.id then some j else some m

/-- The recovery query of `enqueue_job`: latest (highest-id) job with the
given type and dedupe key whose status is queued or running. -/
def latestQueuedRunning (jobs : List BackgroundJob) (jt : String) (k : String) :
    Option BackgroundJob :=
  (jobs.filter (fun j =>
      j.job_type == jt && j.dedupe_key == some k &&
        (j.status == JobStatus.queued || j.status == JobStatus.running))).foldl
    jobMaxIdStep none

/-- Outcome of `enqueue_job`: a fresh insert, the existing deduplicated job
(the `_deduped` path), or a re-raised `IntegrityError`. -/
inductive EnqueueOutcome
  | inserted (j : BackgroundJob)
  | deduped (j : BackgroundJob)
  | integrityError
deriving DecidableEq

/-- `task_queue.enqueue_job`.  The commit raises `IntegrityError` exactly
when the unique constraint on `(job_type, dedupe_key)` is violated; on that
path the insert is rolled back and the existing queued/running job is
returned (re-raising if none is found). -/
def enqueue_job (s : JobStore) (jt : String) (payload : Payload)
    (dedupe_key : Option String) (run_at : Option Int) (max_attempts : Option Nat)
    (now : Int) (dfltMaxAttempts : Nat) : JobStore × EnqueueOutcome :=
  let violation :=
    match dedupe_key with
    | none => false
    | some k => hasDedupePair s.jobs jt k
  if violation then
    match dedupe_key with
    | none => (s, .integrityError)
    | some k =>
      match latestQueuedRunning s.jobs jt k with
      | none => (s, .integrityError)
      | some existing => (s, .deduped existing)
  else
    let j : BackgroundJob :=
      { id := s.nextId
        job_type := jt
        payload := payload
        status := .queued
        attempts := 0
        max_attempts := pyOrNat (max_attempts.getD 0) dfltMaxAttempts
        run_at := run_at.getD now
        dedupe_key := dedupe_key
        created_at := now }
    ({ jobs := s.jobs ++ [j], nextId := s.nextId + 1 }, .inserted j)

/-- Is a job ready to claim: `status == "queued" and run_at <= now`. -/
def isReady (now : Int) (j : BackgroundJob) : Bool :=
  j.status == JobStatus.queued && j.run_at ≤ now

/-- The ready jobs of a store at time `now`. -/
def readyJobs (s : JobStore) (now : Int) : List BackgroundJob :=
  s.jobs.filter (isReady now)

/-- One step of `ORDER BY id ASC ... first()`: keep the lower-id row. -/
def jobMinIdStep (acc : Option BackgroundJob) (j : BackgroundJob) :
    Option BackgroundJob :=
  match acc with
  | none => some j
  | some m => if j.id < m.id then some j else some m

/-- `ORDER BY id ASC ... first()`: the lowest-id job of a list. -/
def firstByIdAsc (jobs : List BackgroundJob) : Option BackgroundJob :=
  jobs.foldl jobMinIdStep none

/-- Write a (mutated) job row back into the table, matching on primary key. -/
def updateJob (s : JobStore) (j : BackgroundJob) : JobStore :=
  { s with jobs := s.jobs.map (fun r => if r.id == j.id then j else r) }

/-- `task_queue.claim_next_job`: among queued jobs with `run_at <= now`,
take the first in `id` ascending order, mark it running and stamp
`locked_at`/`locked_by`; `none` when nothing is ready. -/
def claim_next_job (s : JobStore) (now : Int) (worker_id : String) :
    Option (BackgroundJob × JobStore) :=
  match firstByIdAsc (readyJobs s now) with
  | none => none
  | some j =>
    let j2 := { j with status := .running, locked_at := some now, locked_by := some worker_id }
    some (j2, updateJob s j2)

/-- `task_queue.mark_job_succeeded`. -/
def mark_job_succeeded (now : Int) (j : BackgroundJob) : BackgroundJob :=
  { j with status := .succeeded, finished_at := some now, dedupe_key := none }

/-- Retry backoff in seconds for a post-increment attempt count:
`min(60, 2 ** max(0, attempts - 1))`. -/
def backoffSeconds (attempts : Nat) : Nat :=
  min 60 (2 ^ (attempts - 1))

/-- `task_queue.mark_job_failed`: bump `attempts`, record the error, clear
the lock; either re-queue with exponential backoff or fail terminally
(clearing the dedupe key). -/
def mark_job_failed (now : Int) (dfltMaxAttempts : Nat) (j : BackgroundJob)
    (error : String) : BackgroundJob :=
  let attempts := j.attempts + 1
  let base := { j with
    attempts := attempts
    last_error := some error
    locked_at := (none : Option Int)
    locked_by := (none : Option String) }
  if attempts < pyOrNat j.max_attempts dfltMaxAttempts then
    { base with status := .queued, run_at := now + (backoffSeconds attempts : Nat) }
  else
    { base with status := .failed, finished_at := some now, dedupe_key := none }

/-- Result of running one job handler: normal return or a raised exception. -/
inductive HandlerResult
  | ok
  | err (msg : String)
deriving DecidableEq

/-- The effectful handlers `process_job` dispatches to, abstracted by their
outcome.  Both ML job types call `_run_recompute_recommendations_ml`. -/
structure Handlers where
  send_email : Payload → HandlerResult
  recompute : Payload → HandlerResult
  weekly_digest : Payload → HandlerResult
  filling_fast : Payload → HandlerResult
  guardrails : Payload → HandlerResult

/-- The `if job.job_type == ...` dispatch chain of `process_job`: the
outcome of the matching handler, or `none` for an unknown type. -/
def dispatch_handler (h : Handlers) (j : BackgroundJob) : Option HandlerResult :=
  if j.job_type = "send_email" then some (h.send_email j.payload)
  else if j.job_type = "recompute_recommendations_ml" then some (h.recompute j.payload)
  else if j.job_type = "refresh_user_recommendations_ml" then some (h.recompute j.payload)
  else if j.job_type = "send_weekly_digest" then some (h.weekly_digest j.payload)
  else if j.job_type = "send_filling_fast_alerts" then some (h.filling_fast j.payload)
  else if j.job_type = "evaluate_personalization_guardrails" then some (h.guardrails j.payload)
  else none

/-- The `try` body of `task_queue.process_job`: run the matching handler,
mark success on its normal return, propagate handler exceptions, and route
an unknown type to `mark_job_failed`. -/
def process_job_body (h : Handlers) (now : Int) (dfltMaxAttempts : Nat)
    (j : BackgroundJob) : Except String BackgroundJob :=
  match dispatch_handler h j with
  | some .ok => .ok (mark_job_succeeded now j)
  | some (.err e) => .error e
  | none => .ok (mark_job_failed now dfltMaxAttempts j ("Unknown job_type: " ++ j.job_type))

/-- `task_queue.process_job`: the body under `except Exception`, which
routes every raised exception to `mark_job_failed`. -/
def process_job (h : Handlers) (now : Int) (dfltMaxAttempts : Nat)
    (j : BackgroundJob) : BackgroundJob :=
  match process_job_body h now dfltMaxAttempts j with
  | .ok j2 => j2
  | .error e => mark_job_failed now dfltMaxAttempts j e

/-- The six job types `process_job` recognizes. -/
def knownJobTypes : List String :=
  ["send_email", "recompute_recommendations_ml", "refresh_user_recommendations_ml",
   "send_weekly_digest", "send_filling_fast_alerts", "evaluate_personalization_guardrails"]

/-- A row of the `recommender_models` table (migration 0018).  `model_version`
carries a unique constraint; `id` is the autoincrement primary key, so id
order is creation order. -/
structure RecommenderModel where
  id : Nat
  model_version : String
  feature_names : List String
  weights : List Rat
  is_active : Bool
deriving DecidableEq

/-- Number of rows with `is_active = true`. -/
def activeModelCount (tbl : List RecommenderModel) : Nat :=
  (tbl.filter (fun m => m.is_active)).length

/-- One step of `ORDER BY id DESC ... first()` over model rows. -/
def modelMaxIdStep (acc : Option RecommenderModel) (m : RecommenderModel) :
    Option RecommenderModel :=
  match acc with
  | none => some m
  | some b => if b.id ≤ m.id then some m else some b

/-- `ORDER BY id DESC ... first()` over a list of model rows. -/
def firstModelByIdDesc (tbl : List RecommenderModel) : Option RecommenderModel :=
  tbl.foldl modelMaxIdStep none

/-- The guardrail's "currently active model" query: active rows, highest id
first. -/
def findActiveModel (tbl : List RecommenderModel) : Option RecommenderModel :=
  firstModelByIdDesc (tbl.filter (fun m => m.is_active))

/-- The guardrail's predecessor query: rows with `id < active.id`, highest
id first (creation-order predecessor, regardless of its active flag). -/
def findPreviousModel (tbl : List RecommenderModel) (active : RecommenderModel) :
    Option RecommenderModel :=
  firstModelByIdDesc (tbl.filter (fun m => m.id < active.id))

/-- The fixed 8-name feature schema (`FEATURE_NAMES` of
`recompute_recommendations_ml.py`). -/
def FEATURE_NAMES : List String :=
  ["bias", "overlap_interest_ratio", "overlap_history_ratio", "same_city",
   "category_match", "organizer_match", "popularity", "days_until"]

/-- Model persistence at the end of a training run
(`recompute_recommendations_ml.py` lines 683-706): upsert the row keyed by
`model_version` with `is_active = true`, then set `is_active = false` on
every row whose version differs. -/
def trainer_persist_model (tbl : List RecommenderModel) (version : String)
    (names : List String) (ws : List Rat) (nextId : Nat) : List RecommenderModel :=
  if tbl.any (fun m => m.model_version == version) then
    tbl.map (fun m =>
      if m.model_version == version then
        { m with feature_names := names, weights := ws, is_active := true }
      else
        { m with is_active := false })
  else
    (tbl.map (fun m => { m with is_active := false })) ++
      [{ id := nextId, model_version := version, feature_names := names,
         weights := ws, is_active := true }]

/-- Result of the `--skip-training` model-loading step. -/
inductive TrainerLoad
  | noModel
  | schemaMismatch (got : List String)
  | weightsLenMismatch (got : Nat)
  | loaded (m : RecommenderModel)
deriving DecidableEq

/-- The `--skip-training` model selection (lines 531-543): the requested
version if present, else the active model (highest id), else the latest
model. -/
def skip_training_select (tbl : List RecommenderModel) (requested : Option String) :
    Option RecommenderModel :=
  let byVersion :=
    match requested with
    | none => none
    | some v => (tbl.filter (fun m => m.model_version == v)).head?
  match byVersion with
  | some m => some m
  | none =>
    match findActiveModel tbl with
    | some m => some m
    | none => firstModelByIdDesc tbl

/-- The `--skip-training` load-and-validate step (lines 545-556): no model
is a clean no-op, a feature-name or weights-length mismatch aborts the run. -/
def skip_training_load (tbl : List RecommenderModel) (requested : Option String) :
    TrainerLoad :=
  match skip_training_select tbl requested with
  | none => .noModel
  | some m =>
    if m.feature_names ≠ FEATURE_NAMES then .schemaMismatch m.feature_names
    else if m.weights.length ≠ FEATURE_NAMES.length then .weightsLenMismatch m.weights.length
    else .loaded m

/-- Process exit code of the `--skip-training` run, per the `return`
statements of `main`: 0 for a clean no-op or a successful load, 2 for a
schema mismatch (misconfiguration). -/
def skip_training_exit_code (tbl : List RecommenderModel) (requested : Option String) :
    Nat :=
  match skip_training_load tbl requested with
  | .noModel => 0
  | .schemaMismatch _ => 2
  | .weightsLenMismatch _ => 2
  | .loaded _ => 0

/-- Whether the `--skip-training` run reaches the recommendation writes at
all: the mismatch and no-model paths `return` before any DB write. -/
def skip_training_reaches_writes (tbl : List RecommenderModel)
    (requested : Option String) : Bool :=
  match skip_training_load tbl requested with
  | .loaded _ => true
  | _ => false

/-- `task_queue._run_recompute_recommendations_ml`: the subprocess result
check — a non-zero trainer exit code raises `RuntimeError`. -/
def run_trainer_subprocess (exitCode : Nat) : HandlerResult :=
  if exitCode ≠ 0 then .err ("trainer_failed exit_code=" ++ toString exitCode)
  else .ok

/-- Python `str.strip().lower()`: drop whitespace from both ends, then
lowercase (spelled over the character list so the kernel can evaluate it). -/
def pyStripLower (s : String) : String :=
  String.mk (((s.data.dropWhile (fun c => c.isWhitespace)).reverse.dropWhile
    (fun c => c.isWhitespace)).reverse.map Char.toLower)

/-- The JSON `meta` of an interaction row, restricted to the keys the
guardrail evaluator reads (`source`, `sort`); a missing dict or key reads
as `None`. -/
structure InteractionMeta where
  source : Option String := none
  sort : Option String := none
deriving DecidableEq

/-- A row of the `event_interactions` table, restricted to the columns the
guardrail evaluator reads. -/
structure Interaction where
  user_id : Option Int := none
  event_id : Option Int := none
  interaction_type : String
  occurred_at : Int
  meta : InteractionMeta := {}
deriving DecidableEq

/-- Per-variant counters, keyed like the `{"recommended": 0, "time": 0}`
dicts of `_evaluate_personalization_guardrails`. -/
structure VariantCounts where
  recommended : Nat := 0
  time : Nat := 0
deriving DecidableEq

def VariantCounts.get (c : VariantCounts) (sort : String) : Nat :=
  if sort = "recommended" then c.recommended else c.time

def VariantCounts.bump (c : VariantCounts) (sort : String) : VariantCounts :=
  if sort = "recommended" then { c with recommended := c.recommended + 1 }
  else { c with time := c.time + 1 }

/-- Does a normalized sort value key into the counter dicts
(`sort in impressions`)? -/
def isVariantKey (sort : String) : Bool :=
  sort == "recommended" || sort == "time"

/-- The window filter and column guards shared by the three queries:
`occurred_at >= start`, non-null user and event, matching type. -/
def interactionRowsOfType (rows : List Interaction) (start : Int) (itype : String) :
    List Interaction :=
  rows.filter (fun r =>
    decide (start ≤ r.occurred_at) && r.user_id.isSome && r.event_id.isSome &&
      r.interaction_type == itype)

/-- Is the row an events-list-sourced row with a recognized sort variant,
after `strip().lower()` normalization of both meta values? -/
def qualifiesEventsList (r : Interaction) : Bool :=
  pyStripLower ((r.meta.source).getD "") == "events_list" &&
    isVariantKey (pyStripLower ((r.meta.sort).getD ""))

/-- Impression counting loop of the guardrail evaluator. -/
def countImpressions (rows : List Interaction) (start : Int) : VariantCounts :=
  (interactionRowsOfType rows start "impression").foldl
    (fun acc r =>
      if qualifiesEventsList r then acc.bump (pyStripLower ((r.meta.sort).getD ""))
      else acc)
    {}

/-- Click counting loop. -/
def countClicks (rows : List Interaction) (start : Int) : VariantCounts :=
  (interactionRowsOfType rows start "click").foldl
    (fun acc r =>
      if qualifiesEventsList r then acc.bump (pyStripLower ((r.meta.sort).getD ""))
      else acc)
    {}

/-- The `click_by_user_event` map: per `(user_id, event_id)`, the sort and
timestamp of the latest qualifying click (strictly later timestamps win). -/
def clickByUserEvent (rows : List Interaction) (start : Int) :
    List ((Int × Int) × (String × Int)) :=
  (interactionRowsOfType rows start "click").foldl
    (fun acc r =>
      if qualifiesEventsList r then
        let key := ((r.user_id).getD 0, (r.event_id).getD 0)
        let sort := pyStripLower ((r.meta.sort).getD "")
        match acc.lookup key with
        | none => (key, (sort, r.occurred_at)) :: acc
        | some prev =>
          if prev.2 < r.occurred_at then
            (key, (sort, r.occurred_at)) :: acc.filter (fun p => p.1 ≠ key)
          else acc
      else acc)
    []

/-- Conversion counting loop: a register row converts when it falls at or
after, and within the window of, the latest matching click for its
`(user, event)` pair. -/
def countConversions (rows : List Interaction) (start : Int) (window : Int) :
    VariantCounts :=
  let clicks := clickByUserEvent rows start
  (interactionRowsOfType rows start "register").foldl
    (fun acc r =>
      let key := ((r.user_id).getD 0, (r.event_id).getD 0)
      match clicks.lookup key with
      | none => acc
      | some (sort, click_time) =>
        if r.occurred_at < click_time || click_time + window < r.occurred_at then acc
        else if isVariantKey sort then acc.bump sort
        else acc)
    {}

/-- `_safe_ratio`: division that sends a zero denominator to 0. -/
def safe_ratio (num : Nat) (den : Nat) : Rat :=
  if den = 0 then 0 else (num : Rat) / (den : Rat)

/-- Resolved guardrail parameters (payload values with their `or`-defaults
from settings already applied, as in the first lines of the evaluator). -/
structure GuardrailParams where
  enabled : Bool
  days : Nat
  min_impressions : Nat
  ctr_drop : Rat
  conversion_drop : Rat
  click_to_register_hours : Int
deriving DecidableEq

/-- The evaluator's outcome value (`result["action"]`, with `disabled`
standing for the `{"enabled": False}` early return). -/
inductive GuardrailAction
  | disabled
  | skip_low_volume
  | ok
  | no_active_model
  | no_previous_model
  | rollback
deriving DecidableEq

/-- What `_evaluate_personalization_guardrails` leaves behind: the outcome,
the model table, and the job store (a rollback enqueues a refresh job). -/
structure GuardrailResult where
  action : GuardrailAction
  models : List RecommenderModel
  store : JobStore
deriving DecidableEq

/-- `click_to_register_window = timedelta(hours=max(1, click_to_register_hours))`,
in seconds. -/
def guardrail_window (p : GuardrailParams) : Int :=
  (max 1 p.click_to_register_hours) * 3600

/-- `start = now - timedelta(days=days)`. -/
def guardrail_start (p : GuardrailParams) (now : Int) : Int :=
  now - (p.days : Int) * 86400

/-- The low-volume gate: either variant's impression count below the
minimum. -/
def guardrail_low_volume (p : GuardrailParams) (rows : List Interaction) (now : Int) :
    Bool :=
  let impressions := countImpressions rows (guardrail_start p now)
  impressions.recommended < p.min_impressions || impressions.time < p.min_impressions

/-- The health check: `ctr_ok and conv_ok`, each vacuously true when the
time variant's metric is zero, else the recommended variant's metric must
be at least the time variant's discounted by the drop ratio. -/
def guardrail_healthy (p : GuardrailParams) (rows : List Interaction) (now : Int) :
    Bool :=
  let start := guardrail_start p now
  let impressions := countImpressions rows start
  let clicks := countClicks rows start
  let conversions := countConversions rows start (guardrail_window p)
  let ctr_rec := safe_ratio clicks.recommended impressions.recommended
  let ctr_time := safe_ratio clicks.time impressions.time
  let conv_rec := safe_ratio conversions.recommended clicks.recommended
  let conv_time := safe_ratio conversions.time clicks.time
  let ctr_ok := if ctr_time = 0 then true else decide (ctr_time * (1 - p.ctr_drop) ≤ ctr_rec)
  let conv_ok := if conv_time = 0 then true else decide (conv_time * (1 - p.conversion_drop) ≤ conv_rec)
  ctr_ok && conv_ok

/-- `task_queue._evaluate_personalization_guardrails`, with the metric
aggregation over the interaction log and the decision/rollback logic.
`refreshTopN` is `settings.recommendations_realtime_refresh_top_n` and
`dfltMaxAttempts` is `settings.task_queue_max_attempts`. -/
def evaluate_guardrails (p : GuardrailParams) (rows : List Interaction)
    (tbl : List RecommenderModel) (store : JobStore) (now : Int)
    (refreshTopN : Int) (dfltMaxAttempts : Nat) : GuardrailResult :=
  if !p.enabled then
    { action := .disabled, models := tbl, store := store }
  else
    if guardrail_low_volume p rows now then
      { action := .skip_low_volume, models := tbl, store := store }
    else
      if guardrail_healthy p rows now then
        { action := .ok, models := tbl, store := store }
      else
        match findActiveModel tbl with
        | none => { action := .no_active_model, models := tbl, store := store }
        | some active =>
          match findPreviousModel tbl active with
          | none => { action := .no_previous_model, models := tbl, store := store }
          | some previous =>
            let tbl2 := tbl.map (fun m =>
              if m.id == active.id then { m with is_active := false }
              else if m.id == previous.id then { m with is_active := true }
              else m)
            let store2 := (enqueue_job store "recompute_recommendations_ml"
              { top_n := some refreshTopN, skip_training := true }
              (some "global") none none now dfltMaxAttempts).1
            { action := .rollback, models := tbl2, store := store2 }

/-- `_normalize_city`: strip, lowercase, empty to `None`. -/
def _normalize_city (name : Option String) : Option String :=
  match name with
  | none => none
  | some s =>
    if s = "" then none
    else
      let t := pyStripLower s
      if t = "" then none else some t

/-- `_EventFeatures` of `recompute_recommendations_ml.py` (the fields the
feature builder and history builder read). -/
structure EventFeatures where
  tags : Finset String
  category : Option String := none
  city : Option String := none
  owner_id : Int
  start_time : Option ℝ := none
  seats_taken : Nat := 0
  max_seats : Option Nat := none
  status : String := "published"
  publish_at : Option ℝ := none

/-- `_UserFeatures` of `recompute_recommendations_ml.py`. -/
structure UserFeatures where
  city : Option String := none
  interest_tags : Finset String := ∅
  history_tags : Finset String := ∅
  history_categories : Finset String := ∅
  history_organizer_ids : Finset Int := ∅

/-- `_build_feature_vector`: the fixed 8-dimensional vector, in the fixed
order of `FEATURE_NAMES`. -/
noncomputable def _build_feature_vector (user : UserFeatures) (event : EventFeatures)
    (now : ℝ) : List ℝ :=
  let tag_count : Nat := max 1 event.tags.card
  let overlap_interest_r : ℝ := ((user.interest_tags ∩ event.tags).card : ℝ) / (tag_count : ℝ)
  let overlap_history_r : ℝ := ((user.history_tags ∩ event.tags).card : ℝ) / (tag_count : ℝ)
  let same_city : ℝ :=
    match user.city, event.city with
    | some uc, some ec =>
      if uc ≠ "" && ec ≠ "" && (some uc == _normalize_city (some ec)) then 1 else 0
    | _, _ => 0
  let category_match : ℝ :=
    match event.category with
    | some c => if c ≠ "" && c ∈ user.history_categories then 1 else 0
    | none => 0
  let organizer_match : ℝ := if event.owner_id ∈ user.history_organizer_ids then 1 else 0
  let popularity : ℝ := min (Real.log (1 + (event.seats_taken : ℝ)) / 5) 1
  let days_until : ℝ :=
    match event.start_time with
    | none => 0
    | some st => max 0 (min (((st - now) / 86400) / 180) 1)
  [1, overlap_interest_r, overlap_history_r, same_city, category_match,
   organizer_match, popularity, days_until]

/-- Modelled from the spec: the feature vector as section 4.2 words it —
`[1, overlap_interest, overlap_history, same_city, category_match,
organizer_match, min(log1p(seats_taken)/5, 1), clamp(days/180, 0, 1)]` —
used only to compare the spec's formulas against `_build_feature_vector`. -/
noncomputable def specFeatureVector (user : UserFeatures) (event : EventFeatures)
    (now : ℝ) (st : ℝ) : List ℝ :=
  let tag_count : Nat := max 1 event.tags.card
  let same_city : ℝ :=
    match user.city, event.city with
    | some uc, some ec =>
      if uc ≠ "" && ec ≠ "" && (some uc == _normalize_city (some ec)) then 1 else 0
    | _, _ => 0
  let category_match : ℝ :=
    match event.category with
    | some c => if c ≠ "" && c ∈ user.history_categories then 1 else 0
    | none => 0
  [1,
   ((user.interest_tags ∩ event.tags).card : ℝ) / (tag_count : ℝ),
   ((user.history_tags ∩ event.tags).card : ℝ) / (tag_count : ℝ),
   same_city,
   category_match,
   if event.owner_id ∈ user.history_organizer_ids then (1 : ℝ) else 0,
   min (Real.log (1 + (event.seats_taken : ℝ)) / 5) 1,
   min 1 (max 0 (((st - now) / 86400) / 180))]

/-- Positive-label weight of a registration row: `1.0 + (0.5 if attended
else 0.0)` (line 354 of the trainer). -/
def registration_weight (attended : Bool) : Rat :=
  1 + (if attended then (1 : Rat) / 2 else 0)

/-- The per-user hold-out pick (lines 498-502): only for users with at
least two positives; `rng.choice` is abstracted by the index it returns. -/
def pickHoldout (pos_events : List Nat) (choiceIdx : Nat) : Option Nat :=
  if 2 ≤ pos_events.length then pos_events.get? choiceIdx else none

/-- `positives_by_user[user_id].pop(holdout_event)`. -/
def popHoldout (positives : List (Nat × Rat)) (holdout : Option Nat) :
    List (Nat × Rat) :=
  match holdout with
  | none => positives
  | some h => positives.filter (fun p => p.1 ≠ h)

/-- The history feature sets accumulated for one student. -/
structure HistoryFeatures where
  tags : Finset String := ∅
  categories : Finset String := ∅
  organizers : Finset Int := ∅

/-- One iteration of the history loop (lines 509-516): fold the tags,
category and organizer of one event into the history sets (a missing
event id contributes nothing, mirroring `events.get(event_id)`). -/
def historyStep (events : List (Nat × EventFeatures)) (acc : HistoryFeatures)
    (eid : Nat) : HistoryFeatures :=
  match events.lookup eid with
  | none => acc
  | some ev =>
    { tags := acc.tags ∪ ev.tags
      categories :=
        match ev.category with
        | some c => if c ≠ "" then insert c acc.categories else acc.categories
        | none => acc.categories
      organizers := insert ev.owner_id acc.organizers }

/-- The history loop over all of a user's positive events. -/
def buildHistory (events : List (Nat × EventFeatures)) (pos_events : List Nat) :
    HistoryFeatures :=
  pos_events.foldl (historyStep events) {}

/-- The per-student section of `main` (lines 489-525) that the hold-out
claim is about: pick the hold-out, pop it from the training positives, and
build history from the pre-pop `pos_events` list (the source comment says
"including held-out"). -/
structure StudentBuild where
  holdout : Option Nat
  trainingPositives : List (Nat × Rat)
  history : HistoryFeatures

def build_student (events : List (Nat × EventFeatures))
    (positives : List (Nat × Rat)) (choiceIdx : Nat) : StudentBuild :=
  let pos_events := positives.map (fun p => p.1)
  let holdout := pickHoldout pos_events choiceIdx
  { holdout := holdout
    trainingPositives := popHoldout positives holdout
    history := buildHistory events pos_events }

/-- `decay_lambda = math.log(2.0) / half_life_seconds` of the online
learning updater (`api.record_interactions`). -/
noncomputable def decay_lambda (half_life_seconds : ℝ) : ℝ :=
  Real.log 2 / half_life_seconds

/-- `api._decay`: elapsed time at most zero leaves the score unchanged,
otherwise multiply by `exp(-decay_lambda * delta_seconds)`. -/
noncomputable def _decay (lam : ℝ) (now : ℝ) (score : ℝ) (last_seen_at : ℝ) : ℝ :=
  let delta_seconds := now - last_seen_at
  if delta_seconds ≤ 0 then score
  else score * Real.exp (-(lam * delta_seconds))

/-- The stored-score update on a new signal:
`row.score = min(max_score, _decay(row.score, last_seen_at) + delta)`. -/
noncomputable def updated_score (max_score lam now score last_seen_at delta : ℝ) : ℝ :=
  min max_score (_decay lam now score last_seen_at + delta)

/-- Iterate `process_job` (one worker cycle each time the job comes up
ready again). -/
def processTimes (h : Handlers) (now : Int) (dfltMaxAttempts : Nat) :
    Nat → BackgroundJob → BackgroundJob
  | 0, j => j
  | n + 1, j => processTimes h now dfltMaxAttempts n (process_job h now dfltMaxAttempts j)

/-- A handler set whose every handler raises, for the always-failing
scenario. -/
def alwaysRaiseHandlers : Handlers :=
  { send_email := fun _ => .err "boom"
    recompute := fun _ => .err "boom"
    weekly_digest := fun _ => .err "boom"
    filling_fast := fun _ => .err "boom"
    guardrails := fun _ => .err "boom" }

/-- A handler set whose every handler returns normally. -/
def allOkHandlers : Handlers :=
  { send_email := fun _ => .ok
    recompute := fun _ => .ok
    weekly_digest := fun _ => .ok
    filling_fast := fun _ => .ok
    guardrails := fun _ => .ok }

/-- `_run_recompute_recommendations_ml` against a given model table: a
`skip_training` payload runs the trainer's `--skip-training` path (with
`RECOMMENDER_MODEL_VERSION` from `payload.model_version`) and raises on a
non-zero exit code.  The full-training path is abstracted as a normal
return; the theorems about this handler only exercise `skip_training`
payloads. -/
def recompute_handler (tbl : List RecommenderModel) (p : Payload) : HandlerResult :=
  if p.skip_training then run_trainer_subprocess (skip_training_exit_code tbl p.model_version)
  else .ok

/-- The worker's handlers with the ML handler wired to a model table. -/
def trainer_handlers (tbl : List RecommenderModel) : Handlers :=
  { allOkHandlers with recompute := recompute_handler tbl }

/-- Scenario D's job: `max_attempts = 3`, claimed (running), zero attempts. -/
def jobScenarioD : BackgroundJob :=
  { id := 1, job_type := "send_email", payload := {}, status := .running,
    attempts := 0, max_attempts := 3, run_at := 0 }

/-- An unknown-job-type row for the `process_job` claims. -/
def jobUnknown : BackgroundJob :=
  { id := 2, job_type := "mystery", payload := {}, status := .running,
    attempts := 0, max_attempts := 3, run_at := 0 }

/-- Store for the claim-ordering counterexample: job 1 was enqueued first
with the later `run_at`, job 2 second with the earlier `run_at`; both ready
at `now = 10`. -/
def cexStoreC4 : JobStore :=
  { jobs :=
      [{ id := 1, job_type := "send_email", payload := {}, status := .queued,
         attempts := 0, max_attempts := 3, run_at := 10 },
       { id := 2, job_type := "send_email", payload := {}, status := .queued,
         attempts := 0, max_attempts := 3, run_at := 5 }]
    nextId := 3 }

/-- A queued job holding dedupe key `k`, and the one-row store around it,
for the idempotent-enqueue witness. -/
def witnessJobC2 : BackgroundJob :=
  { id := 0, job_type := "t", payload := {}, status := .queued,
    attempts := 0, max_attempts := 3, run_at := 0, dedupe_key := some "k" }

def witnessStoreC2 : JobStore :=
  { jobs := [witnessJobC2], nextId := 1 }

/-- A model row with the valid 8-name schema. -/
def mdlRow (i : Nat) (v : String) (act : Bool) : RecommenderModel :=
  { id := i, model_version := v, feature_names := FEATURE_NAMES,
    weights := List.replicate 8 0, is_active := act }

/-- Model tables for the guardrail scenarios: an active model with a
predecessor, an active model without one, and the two-active state of the
invariant counterexample. -/
def scenarioTableWithPrev : List RecommenderModel :=
  [mdlRow 1 "old" false, mdlRow 2 "new" true]

def scenarioTableNoPrev : List RecommenderModel :=
  [mdlRow 1 "only" true]

def cexTwoActiveTable : List RecommenderModel :=
  [mdlRow 1 "a" true, mdlRow 2 "b" false, mdlRow 3 "c" true]

/-- Scenario C interaction rows: 10 events-list impressions per variant,
5 clicks and 2 in-window registrations on the time variant, none on the
recommended variant. -/
def scenarioMetaRec : InteractionMeta :=
  { source := some "events_list", sort := some "recommended" }

def scenarioMetaTime : InteractionMeta :=
  { source := some "events_list", sort := some "time" }

def scenarioInteractions : List Interaction :=
  (List.replicate 10
    { user_id := some 1, event_id := some 21, interaction_type := "impression",
      occurred_at := 999000, meta := scenarioMetaRec }) ++
  (List.replicate 10
    { user_id := some 1, event_id := some 11, interaction_type := "impression",
      occurred_at := 999000, meta := scenarioMetaTime }) ++
  (List.replicate 5
    { user_id := some 1, event_id := some 11, interaction_type := "click",
      occurred_at := 999100, meta := scenarioMetaTime }) ++
  [{ user_id := some 1, event_id := some 11, interaction_type := "register",
     occurred_at := 999200 },
   { user_id := some 1, event_id := some 11, interaction_type := "register",
     occurred_at := 999300 }]

/-- Scenario C parameters: `min_impressions = 5`, both drop ratios 0.1. -/
def scenarioParams : GuardrailParams :=
  { enabled := true, days := 1, min_impressions := 5, ctr_drop := 1 / 10,
    conversion_drop := 1 / 10, click_to_register_hours := 72 }

/-- A persisted model whose stored feature-name list no longer matches
`FEATURE_NAMES`. -/
def cexMismatchTable : List RecommenderModel :=
  [{ id := 1, model_version := "m1", feature_names := ["bias"], weights := [0],
     is_active := true }]

/-- A claimed score-only refresh job for the schema-mismatch scenario. -/
def cexJobC6 : BackgroundJob :=
  { id := 7, job_type := "recompute_recommendations_ml",
    payload := { skip_training := true }, status := .running,
    attempts := 0, max_attempts := 3, run_at := 0 }

/-- Two events with disjoint singleton tag sets, and a user positive on
both, for the hold-out claim. -/
def cexEventsC7 : List (Nat × EventFeatures) :=
  [(1, { tags := {"a"}, owner_id := 100 }),
   (2, { tags := {"b"}, owner_id := 200 })]

def cexPositivesC7 : List (Nat × Rat) :=
  [(1, 1), (2, 1)]

/-- Scenario B: event E1 with the single tag `rock`, and the user whose
only signal is one (non-attended) registration on it. -/
def eventE1 : EventFeatures :=
  { tags := {"rock"}, owner_id := 5 }

def scenarioBPositives : List (Nat × Rat) :=
  [(1, registration_weight false)]

def scenarioBBuild : StudentBuild :=
  build_student [(1, eventE1)] scenarioBPositives 0

def scenarioBUser : UserFeatures :=
  { city := none, interest_tags := ∅,
    history_tags := scenarioBBuild.history.tags,
    history_categories := scenarioBBuild.history.categories,
    history_organizer_ids := scenarioBBuild.history.organizers }

/-- An event with a concrete start time, for the feature-vector witness. -/
def witnessEventC9 : EventFeatures :=
  { tags := ∅, owner_id := 0, start_time := some 100, seats_taken := 3 }

/-! Helper lemmas about the embedded queries and job transitions. -/

theorem mark_job_failed_status_cases (now : Int) (dflt : Nat) (j : BackgroundJob)
    (e : String) :
    (mark_job_failed now dflt j e).status = JobStatus.queued ∨
      (mark_job_failed now dflt j e).status = JobStatus.failed := by
  simp only [mark_job_failed]
  split
  · exact Or.inl rfl
  · exact Or.inr rfl

theorem dispatch_handler_unknown (h : Handlers) (j : BackgroundJob)
    (hunk : j.job_type ∉ knownJobTypes) : dispatch_handler h j = none := by
  simp only [knownJobTypes, List.mem_cons, List.mem_singleton, not_or] at hunk
  obtain ⟨h1, h2, h3, h4, h5, h6, -⟩ := hunk
  simp [dispatch_handler, h1, h2, h3, h4, h5, h6]

theorem process_job_status_cases (h : Handlers) (now : Int) (dflt : Nat)
    (j : BackgroundJob) :
    (process_job h now dflt j).status = JobStatus.succeeded ∨
      (process_job h now dflt j).status = JobStatus.queued ∨
      (process_job h now dflt j).status = JobStatus.failed := by
  unfold process_job process_job_body
  cases hd : dispatch_handler h j with
  | none =>
    simp only []
    exact Or.inr (mark_job_failed_status_cases now dflt j _)
  | some r =>
    cases r with
    | ok => exact Or.inl rfl
    | err e =>
      simp only []
      exact Or.inr (mark_job_failed_status_cases now dflt j e)

/-- C3: `mark_job_failed` increments `attempts` and records `last_error`;
below `max_attempts` it re-queues with `run_at = now + min(60, 2^(attempts-1))`
(a backoff non-decreasing in attempts), otherwise it fails terminally,
stamping `finished_at` and clearing `dedupe_key`; a `max_attempts = 3` job
whose handler always raises is re-queued exactly twice and ends failed with
`attempts = 3`. -/
theorem C3_mark_failed_backoff (j : BackgroundJob) (error : String) (now : Int)
    (dflt : Nat) :
    ((mark_job_failed now dflt j error).attempts = j.attempts + 1 ∧
      (mark_job_failed now dflt j error).last_error = some error) ∧
    (j.attempts + 1 < pyOrNat j.max_attempts dflt →
      (mark_job_failed now dflt j error).status = JobStatus.queued ∧
      (mark_job_failed now dflt j error).run_at =
        now + (backoffSeconds (j.attempts + 1) : Nat) ∧
      (mark_job_failed now dflt j error).dedupe_key = j.dedupe_key) ∧
    (¬ j.attempts + 1 < pyOrNat j.max_attempts dflt →
      (mark_job_failed now dflt j error).status = JobStatus.failed ∧
      (mark_job_failed now dflt j error).finished_at = some now ∧
      (mark_job_failed now dflt j error).dedupe_key = none) ∧
    (∀ a b : Nat, a ≤ b → backoffSeconds a ≤ backoffSeconds b) ∧
    (backoffSeconds 1 = 1 ∧ backoffSeconds 2 = 2 ∧ backoffSeconds 3 = 4 ∧
      backoffSeconds 6 = 32 ∧ backoffSeconds 7 = 60 ∧ backoffSeconds 8 = 60) ∧
    ((processTimes alwaysRaiseHandlers 0 3 1 jobScenarioD).status = JobStatus.queued ∧
      (processTimes alwaysRaiseHandlers 0 3 2 jobScenarioD).status = JobStatus.queued ∧
      (processTimes alwaysRaiseHandlers 0 3 3 jobScenarioD).status = JobStatus.failed ∧
      (processTimes alwaysRaiseHandlers 0 3 3 jobScenarioD).attempts = 3) := by
  refine ⟨⟨?_, ?_⟩, ?_, ?_, ?_, by decide, by decide⟩
  · simp only [mark_job_failed]
    split <;> rfl
  · simp only [mark_job_failed]
    split <;> rfl
  · intro hlt
    simp only [mark_job_failed, if_pos hlt]
    refine ⟨?_, ?_, ?_⟩ <;> trivial
  · intro hge
    simp only [mark_job_failed, if_neg hge]
    refine ⟨?_, ?_, ?_⟩ <;> trivial
  · intro a b hab
    exact min_le_min (le_refl 60)
      (Nat.pow_le_pow_right (by norm_num) (Nat.sub_le_sub_right hab 1))

/-- Witness for C3 at a concrete job: the first failure of the scenario-D
job re-queues it with a 1-second backoff and `attempts = 1`. -/
theorem C3_mark_failed_backoff_witness :
    (mark_job_failed 0 3 jobScenarioD "boom").status = JobStatus.queued ∧
    (mark_job_failed 0 3 jobScenarioD "boom").run_at = 0 + (backoffSeconds 1 : Nat) ∧
    (mark_job_failed 0 3 jobScenarioD "boom").attempts = 1 := by
  obtain ⟨⟨ha, -⟩, hretry, -⟩ := C3_mark_failed_backoff jobScenarioD "boom" 0 3
  obtain ⟨h1, h2, -⟩ := hretry (by decide)
  exact ⟨h1, h2, ha⟩

/-- C10: `process_job` never leaves a job unmarked (every outcome is a
succeeded, re-queued, or terminally failed job — handler exceptions are
routed to `mark_job_failed`); an unknown job type is routed to
`mark_job_failed` with error `Unknown job_type: <type>` and, following the
normal retry schedule, ends terminally failed after `max_attempts`
processing rounds. -/
theorem C10_process_job_total (h : Handlers) (now : Int) (dflt : Nat)
    (j : BackgroundJob) (hunk : j.job_type ∉ knownJobTypes) :
    (∀ (h2 : Handlers) (j2 : BackgroundJob),
      (process_job h2 now dflt j2).status = JobStatus.succeeded ∨
        (process_job h2 now dflt j2).status = JobStatus.queued ∨
        (process_job h2 now dflt j2).status = JobStatus.failed) ∧
    process_job h now dflt j =
      mark_job_failed now dflt j ("Unknown job_type: " ++ j.job_type) ∧
    ((process_job allOkHandlers 0 3 jobUnknown).last_error =
        some "Unknown job_type: mystery" ∧
      (processTimes allOkHandlers 0 3 1 jobUnknown).status = JobStatus.queued ∧
      (processTimes allOkHandlers 0 3 2 jobUnknown).status = JobStatus.queued ∧
      (processTimes allOkHandlers 0 3 3 jobUnknown).status = JobStatus.failed ∧
      (processTimes allOkHandlers 0 3 3 jobUnknown).attempts = 3) := by
  refine ⟨fun h2 j2 => process_job_status_cases h2 now dflt j2, ?_, by decide⟩
  unfold process_job process_job_body
  rw [dispatch_handler_unknown h j hunk]

/-- Witness for C10 at the concrete unknown-type job. -/
theorem C10_process_job_total_witness :
    process_job allOkHandlers 0 3 jobUnknown =
      mark_job_failed 0 3 jobUnknown ("Unknown job_type: " ++ jobUnknown.job_type) ∧
    (process_job allOkHandlers 0 3 jobUnknown).status = JobStatus.queued := by
  obtain ⟨-, heq, -⟩ := C10_process_job_total allOkHandlers 0 3 jobUnknown (by decide)
  exact ⟨heq, by decide⟩

theorem jobMinIdStep_foldl_spec (l : List BackgroundJob) :
    ∀ (acc : Option BackgroundJob) (j : BackgroundJob),
      l.foldl jobMinIdStep acc = some j →
      (j ∈ l ∨ acc = some j) ∧ (∀ x ∈ l, j.id ≤ x.id) ∧
        (∀ a, acc = some a → j.id ≤ a.id) := by
  induction l with
  | nil =>
    intro acc j h
    simp only [List.foldl_nil] at h
    subst h
    refine ⟨Or.inr rfl, by simp, ?_⟩
    intro a ha
    injection ha with ha
    subst ha
    exact le_refl _
  | cons y l ih =>
    intro acc j h
    simp only [List.foldl_cons] at h
    obtain ⟨hmem, hmin, hacc⟩ := ih (jobMinIdStep acc y) j h
    obtain ⟨b, hb⟩ : ∃ b, jobMinIdStep acc y = some b := by
      cases acc with
      | none => exact ⟨y, rfl⟩
      | some m =>
        by_cases hlt : y.id < m.id
        · exact ⟨y, by simp [jobMinIdStep, hlt]⟩
        · exact ⟨m, by simp [jobMinIdStep, hlt]⟩
    have hble : b.id ≤ y.id ∧ (b = y ∨ acc = some b) := by
      cases acc with
      | none =>
        simp only [jobMinIdStep] at hb
        injection hb with hb
        subst hb
        exact ⟨le_refl _, Or.inl rfl⟩
      | some m =>
        simp only [jobMinIdStep] at hb
        by_cases hlt : y.id < m.id
        · rw [if_pos hlt] at hb
          injection hb with hb
          subst hb
          exact ⟨le_refl _, Or.inl rfl⟩
        · rw [if_neg hlt] at hb
          injection hb with hb
          subst hb
          exact ⟨by omega, Or.inr rfl⟩
    have hjb : j.id ≤ b.id := hacc b hb
    refine ⟨?_, ?_, ?_⟩
    · rcases hmem with hmem | hmem
      · exact Or.inl (List.mem_cons_of_mem _ hmem)
      · rw [hb] at hmem
        injection hmem with hmem
        subst hmem
        rcases hble.2 with hby | hbacc
        · subst hby; exact Or.inl (List.mem_cons_self _ _)
        · exact Or.inr hbacc
    · intro x hx
      rcases List.mem_cons.mp hx with hx | hx
      · subst hx; omega
      · exact hmin x hx
    · intro a ha
      subst ha
      simp only [jobMinIdStep] at hb
      by_cases hlt : y.id < a.id
      · rw [if_pos hlt] at hb
        injection hb with hb
        subst hb
        omega
      · rw [if_neg hlt] at hb
        injection hb with hb
        subst hb
        exact hjb

theorem jobMinIdStep_foldl_some_acc (l : List BackgroundJob) :
    ∀ a : BackgroundJob, (l.foldl jobMinIdStep (some a)).isSome := by
  induction l with
  | nil => intro a; rfl
  | cons y l ih =>
    intro a
    rw [List.foldl_cons]
    show (l.foldl jobMinIdStep (if y.id < a.id then some y else some a)).isSome
    by_cases hlt : y.id < a.id
    · rw [if_pos hlt]; exact ih y
    · rw [if_neg hlt]; exact ih a

theorem firstByIdAsc_eq_none_iff (l : List BackgroundJob) :
    firstByIdAsc l = none ↔ l = [] := by
  constructor
  · intro h
    cases l with
    | nil => rfl
    | cons y l =>
      exfalso
      unfold firstByIdAsc at h
      rw [List.foldl_cons] at h
      have hstep : jobMinIdStep none y = some y := rfl
      rw [hstep] at h
      have hs := jobMinIdStep_foldl_some_acc l y
      rw [h] at hs
      simp at hs
  · intro h
    subst h
    rfl

/-- C4 amended: `claim_next_job` selects, among jobs with status queued and
`run_at <= now`, the one with the LOWEST id (insertion order, not earliest
`run_at`); it marks that job running, stamps `locked_at`/`locked_by` with
the claiming worker, and returns none exactly when no job is ready. -/
theorem C4_claim_next_amended (s : JobStore) (now : Int) (w : String) :
    (claim_next_job s now w = none ↔ readyJobs s now = []) ∧
    (∀ j s2, claim_next_job s now w = some (j, s2) →
      ∃ j0, j0 ∈ readyJobs s now ∧ (∀ x ∈ readyJobs s now, j0.id ≤ x.id) ∧
        j = { j0 with status := JobStatus.running, locked_at := some now, locked_by := some w } ∧
        s2 = updateJob s j) := by
  constructor
  · unfold claim_next_job
    cases hf : firstByIdAsc (readyJobs s now) with
    | none =>
      exact ⟨fun _ => (firstByIdAsc_eq_none_iff _).mp hf, fun _ => rfl⟩
    | some j0 =>
      constructor
      · intro hcontra
        exact Option.noConfusion hcontra
      · intro hempty
        rw [hempty] at hf
        exact Option.noConfusion hf
  · intro j s2 hclaim
    unfold claim_next_job at hclaim
    revert hclaim
    cases hf : firstByIdAsc (readyJobs s now) with
    | none =>
      intro hclaim
      exact Option.noConfusion hclaim
    | some j0 =>
      intro hclaim
      injection hclaim with hclaim
      rw [Prod.mk.injEq] at hclaim
      obtain ⟨hj, hs2⟩ := hclaim
      rw [hj] at hs2
      obtain ⟨hmem, hmin, -⟩ := jobMinIdStep_foldl_spec (readyJobs s now) none j0 hf
      refine ⟨j0, ?_, hmin, hj.symm, hs2.symm⟩
      rcases hmem with hmem | hmem
      · exact hmem
      · exact Option.noConfusion hmem

/-- C4 counterexample: with job 1 (run_at 10) inserted before job 2
(run_at 5) and both ready at now = 10, `claim_next_job` hands out job 1,
not the earliest-`run_at` job 2. -/
theorem C4_run_at_order_counterexample :
    ((claim_next_job cexStoreC4 10 "w").map (fun pr => (pr.1.id, pr.1.run_at)) =
      some (1, 10)) ∧
    (∃ x ∈ readyJobs cexStoreC4 10, x.run_at = 5) ∧
    (∀ x ∈ readyJobs cexStoreC4 10, x.run_at = 5 → x.id = 2) := by decide

/-- Witness for C4 at the concrete two-job store. -/
theorem C4_claim_next_amended_witness :
    ∃ j0, j0 ∈ readyJobs cexStoreC4 10 ∧
      (∀ x ∈ readyJobs cexStoreC4 10, j0.id ≤ x.id) ∧ j0.id = 1 := by
  obtain ⟨j0, h1, h2, h3, -⟩ :=
    (C4_claim_next_amended cexStoreC4 10 "w").2
      { id := 1, job_type := "send_email", payload := {}, status := .running,
        attempts := 0, max_attempts := 3, run_at := 10, locked_at := some 10,
        locked_by := some "w" }
      (updateJob cexStoreC4
        { id := 1, job_type := "send_email", payload := {}, status := .running,
          attempts := 0, max_attempts := 3, run_at := 10, locked_at := some 10,
          locked_by := some "w" })
      (by decide)
  refine ⟨j0, h1, h2, ?_⟩
  exact (congrArg BackgroundJob.id h3).symm

theorem jobMaxIdStep_foldl_all_eq (l : List BackgroundJob) (j : BackgroundJob) :
    ∀ acc, (acc = none ∨ acc = some j) → (∀ x ∈ l, x = j) →
      l.foldl jobMaxIdStep acc = (if l.isEmpty then acc else some j) := by
  induction l with
  | nil =>
    intro acc hacc hall
    simp
  | cons y l ih =>
    intro acc hacc hall
    have hy : y = j := hall y (List.mem_cons_self _ _)
    rw [List.foldl_cons]
    have hstep : jobMaxIdStep acc y = some j := by
      rcases hacc with h | h
      · subst h; simp [jobMaxIdStep, hy]
      · subst h; simp [jobMaxIdStep, hy]
    rw [hstep, ih (some j) (Or.inr rfl) (fun x hx => hall x (List.mem_cons_of_mem _ hx))]
    by_cases hl : l.isEmpty <;> simp [hl]

theorem latestQueuedRunning_unique (jobs : List BackgroundJob) (jt k : String)
    (j : BackgroundJob) (hj : j ∈ jobs) (hjt : j.job_type = jt)
    (hjk : j.dedupe_key = some k)
    (hst : j.status = JobStatus.queued ∨ j.status = JobStatus.running)
    (huniq : ∀ x ∈ jobs, x.job_type = jt → x.dedupe_key = some k → x = j) :
    latestQueuedRunning jobs jt k = some j := by
  unfold latestQueuedRunning
  have hmemf : j ∈ jobs.filter (fun x =>
      x.job_type == jt && x.dedupe_key == some k &&
        (x.status == JobStatus.queued || x.status == JobStatus.running)) := by
    rw [List.mem_filter]
    refine ⟨hj, ?_⟩
    rcases hst with h | h <;> simp [hjt, hjk, h]
  have hall : ∀ x ∈ jobs.filter (fun x =>
      x.job_type == jt && x.dedupe_key == some k &&
        (x.status == JobStatus.queued || x.status == JobStatus.running)), x = j := by
    intro x hx
    rw [List.mem_filter] at hx
    obtain ⟨hxm, hxp⟩ := hx
    simp only [Bool.and_eq_true, beq_iff_eq] at hxp
    exact huniq x hxm hxp.1.1 hxp.1.2
  rw [jobMaxIdStep_foldl_all_eq _ j none (Or.inl rfl) hall]
  have hne := List.ne_nil_of_mem hmemf
  simp [List.isEmpty_iff, hne]

/-- C2: while a job with dedupe key `(t, k)` is queued or running (and is
the unique holder of that pair, as the DB unique constraint guarantees), a
second `enqueue_job` with the same pair returns that same job and inserts
no row; `mark_job_succeeded` (and terminal `mark_job_failed`) clears the
key, after which an enqueue of the same pair inserts a new job with a
distinct id. -/
theorem C2_idempotent_enqueue (s : JobStore) (jt k : String) (q q2 : Payload)
    (t t2 t3 : Int) (error : String) (dflt : Nat) (j : BackgroundJob)
    (hj : j ∈ s.jobs) (hjt : j.job_type = jt) (hjk : j.dedupe_key = some k)
    (hst : j.status = JobStatus.queued ∨ j.status = JobStatus.running)
    (huniq : ∀ x ∈ s.jobs, x.job_type = jt → x.dedupe_key = some k → x = j)
    (hid : ∀ x ∈ s.jobs, x.id < s.nextId) :
    enqueue_job s jt q (some k) none none t dflt = (s, .deduped j) ∧
    (mark_job_succeeded t2 j).dedupe_key = none ∧
    (pyOrNat j.max_attempts dflt ≤ j.attempts + 1 →
      (mark_job_failed t2 dflt j error).dedupe_key = none) ∧
    hasDedupePair (updateJob s (mark_job_succeeded t2 j)).jobs jt k = false ∧
    (∃ j2, enqueue_job (updateJob s (mark_job_succeeded t2 j)) jt q2 (some k)
        none none t3 dflt =
        ({ jobs := (updateJob s (mark_job_succeeded t2 j)).jobs ++ [j2],
           nextId := s.nextId + 1 }, .inserted j2) ∧
      j2.id ≠ j.id ∧ j2.dedupe_key = some k ∧ j2.status = JobStatus.queued) := by
  have hpair : hasDedupePair s.jobs jt k = true := by
    unfold hasDedupePair
    rw [List.any_eq_true]
    exact ⟨j, hj, by simp [hjt, hjk]⟩
  have hlat := latestQueuedRunning_unique s.jobs jt k j hj hjt hjk hst huniq
  have hnopair : hasDedupePair (updateJob s (mark_job_succeeded t2 j)).jobs jt k
      = false := by
    unfold hasDedupePair updateJob
    rw [List.any_eq_false]
    intro x hx
    rw [List.mem_map] at hx
    obtain ⟨r, hr, hxeq⟩ := hx
    subst hxeq
    by_cases hrid : (r.id == (mark_job_succeeded t2 j).id) = true
    · rw [if_pos hrid]
      simp [mark_job_succeeded]
    · rw [Bool.not_eq_true] at hrid
      rw [if_neg (by simp [hrid])]
      intro hcon
      simp only [Bool.and_eq_true, beq_iff_eq] at hcon
      have hrj := huniq r hr hcon.1 hcon.2
      subst hrj
      simp [mark_job_succeeded] at hrid
  refine ⟨?_, rfl, ?_, hnopair, ?_⟩
  · simp [enqueue_job, hpair, hlat]
  · intro hterm
    unfold mark_job_failed
    rw [if_neg (by omega)]
  · refine ⟨{ id := s.nextId, job_type := jt, payload := q2, status := .queued,
              attempts := 0, max_attempts := pyOrNat ((none : Option Nat).getD 0) dflt,
              run_at := (none : Option Int).getD t3, dedupe_key := some k,
              created_at := t3 }, ?_, ?_, rfl, rfl⟩
    · simp [enqueue_job, hnopair]
      rfl
    · intro hc
      have hlt := hid j hj
      rw [← hc] at hlt
      exact lt_irrefl _ hlt

/-- Witness for C2 at a one-job store holding dedupe key `k`. -/
theorem C2_idempotent_enqueue_witness :
    enqueue_job witnessStoreC2 "t" {} (some "k") none none 5 3 =
      (witnessStoreC2, .deduped witnessJobC2) ∧
    hasDedupePair (updateJob witnessStoreC2
      (mark_job_succeeded 6 witnessJobC2)).jobs "t" "k" = false := by
  obtain ⟨h1, -, -, h4, -⟩ :=
    C2_idempotent_enqueue witnessStoreC2 "t" "k" {} {} 5 6 7 "e" 3 witnessJobC2
      (by decide) rfl rfl (Or.inl rfl) (by decide) (by decide)
  exact ⟨h1, h4⟩

theorem modelMaxIdStep_foldl_mem (l : List RecommenderModel) :
    ∀ acc m, l.foldl modelMaxIdStep acc = some m → m ∈ l ∨ acc = some m := by
  induction l with
  | nil =>
    intro acc m h
    exact Or.inr (by simpa using h)
  | cons y l ih =>
    intro acc m h
    rw [List.foldl_cons] at h
    rcases ih _ m h with hm | hm
    · exact Or.inl (List.mem_cons_of_mem _ hm)
    · cases acc with
      | none =>
        simp only [modelMaxIdStep] at hm
        injection hm with hm
        subst hm
        exact Or.inl (List.mem_cons_self _ _)
      | some b =>
        simp only [modelMaxIdStep] at hm
        by_cases hle : b.id ≤ y.id
        · rw [if_pos hle] at hm
          injection hm with hm
          subst hm
          exact Or.inl (List.mem_cons_self _ _)
        · rw [if_neg hle] at hm
          injection hm with hm
          subst hm
          exact Or.inr rfl

theorem findActiveModel_spec (tbl : List RecommenderModel) (a : RecommenderModel)
    (h : findActiveModel tbl = some a) : a ∈ tbl ∧ a.is_active = true := by
  unfold findActiveModel firstModelByIdDesc at h
  rcases modelMaxIdStep_foldl_mem _ none a h with hm | hm
  · rw [List.mem_filter] at hm
    exact ⟨hm.1, hm.2⟩
  · exact Option.noConfusion hm

theorem findPreviousModel_spec (tbl : List RecommenderModel)
    (a p : RecommenderModel) (h : findPreviousModel tbl a = some p) :
    p ∈ tbl ∧ p.id < a.id := by
  unfold findPreviousModel firstModelByIdDesc at h
  rcases modelMaxIdStep_foldl_mem _ none p h with hm | hm
  · rw [List.mem_filter] at hm
    exact ⟨hm.1, by simpa using hm.2⟩
  · exact Option.noConfusion hm

/-- C5: when both variants meet the impression minimum and the recommended
variant fails the CTR/conversion health check, the guardrail evaluator
deactivates the (highest-id) active model, reactivates the creation-order
predecessor, enqueues a `skip_training` refresh job under dedupe key
`global`, and returns `rollback`; when there is no predecessor it returns
`no_previous_model` and changes nothing. -/
theorem C5_guardrail_rollback (p : GuardrailParams) (rows : List Interaction)
    (tbl : List RecommenderModel) (store : JobStore) (now : Int)
    (topN : Int) (dflt : Nat)
    (hen : p.enabled = true)
    (hvol : guardrail_low_volume p rows now = false)
    (hunh : guardrail_healthy p rows now = false) :
    ∀ a, findActiveModel tbl = some a →
      (findPreviousModel tbl a = none →
        evaluate_guardrails p rows tbl store now topN dflt =
          { action := .no_previous_model, models := tbl, store := store }) ∧
      (∀ prev, findPreviousModel tbl a = some prev →
        a.is_active = true ∧ prev.id < a.id ∧
        evaluate_guardrails p rows tbl store now topN dflt =
          { action := .rollback,
            models := tbl.map (fun m =>
              if m.id == a.id then { m with is_active := false }
              else if m.id == prev.id then { m with is_active := true }
              else m),
            store := (enqueue_job store "recompute_recommendations_ml"
              { top_n := some topN, skip_training := true }
              (some "global") none none now dflt).1 } ∧
        (hasDedupePair store.jobs "recompute_recommendations_ml" "global" = false →
          ∃ jr, (evaluate_guardrails p rows tbl store now topN dflt).store.jobs =
              store.jobs ++ [jr] ∧
            jr.payload.skip_training = true ∧
            jr.job_type = "recompute_recommendations_ml" ∧
            jr.dedupe_key = some "global" ∧
            jr.status = JobStatus.queued)) := by
  intro a ha
  constructor
  · intro hprev
    simp [evaluate_guardrails, hen, hvol, hunh, ha, hprev]
  · intro prev hprev
    obtain ⟨hamem, hact⟩ := findActiveModel_spec tbl a ha
    obtain ⟨hpmem, hplt⟩ := findPreviousModel_spec tbl a prev hprev
    refine ⟨hact, hplt, ?_, ?_⟩
    · simp [evaluate_guardrails, hen, hvol, hunh, ha, hprev]
    · intro hfree
      refine ⟨{ id := store.nextId, job_type := "recompute_recommendations_ml",
                payload := { top_n := some topN, skip_training := true },
                status := .queued, attempts := 0,
                max_attempts := pyOrNat ((none : Option Nat).getD 0) dflt,
                run_at := (none : Option Int).getD now,
                dedupe_key := some "global",
                created_at := now }, ?_, rfl, rfl, rfl, rfl⟩
      simp [evaluate_guardrails, hen, hvol, hunh, ha, hprev, enqueue_job, hfree]

theorem scenario_metrics_unhealthy :
    guardrail_low_volume scenarioParams scenarioInteractions 1000000 = false ∧
    guardrail_healthy scenarioParams scenarioInteractions 1000000 = false := by
  have himp : countImpressions scenarioInteractions
      (guardrail_start scenarioParams 1000000) =
      { recommended := 10, time := 10 } := by decide
  have hclicks : countClicks scenarioInteractions
      (guardrail_start scenarioParams 1000000) =
      { recommended := 0, time := 5 } := by decide
  have hconv : countConversions scenarioInteractions
      (guardrail_start scenarioParams 1000000) (guardrail_window scenarioParams) =
      { recommended := 0, time := 2 } := by decide
  constructor
  · unfold guardrail_low_volume
    rw [himp]
    decide
  · unfold guardrail_healthy
    simp only [himp, hclicks, hconv, safe_ratio]
    norm_num [scenarioParams]

/-- Witness for C5: Scenario C (10 impressions, 0 clicks on recommended;
10 impressions, 5 clicks, 2 attributable registrations on time;
min_impressions 5, drop ratios 0.1) rolls back when a predecessor exists
and reports `no_previous_model` otherwise. -/
theorem C5_guardrail_rollback_witness :
    (evaluate_guardrails scenarioParams scenarioInteractions scenarioTableWithPrev
        ⟨[], 0⟩ 1000000 50 3).action = GuardrailAction.rollback ∧
    (evaluate_guardrails scenarioParams scenarioInteractions scenarioTableNoPrev
        ⟨[], 0⟩ 1000000 50 3).action = GuardrailAction.no_previous_model := by
  constructor
  · have h := (C5_guardrail_rollback scenarioParams scenarioInteractions
      scenarioTableWithPrev ⟨[], 0⟩ 1000000 50 3 rfl scenario_metrics_unhealthy.1
      scenario_metrics_unhealthy.2) (mdlRow 2 "new" true) (by decide)
    have h2 := (h.2 (mdlRow 1 "old" false) (by decide)).2.2.1
    rw [h2]
  · have h := (C5_guardrail_rollback scenarioParams scenarioInteractions
      scenarioTableNoPrev ⟨[], 0⟩ 1000000 50 3 rfl scenario_metrics_unhealthy.1
      scenario_metrics_unhealthy.2) (mdlRow 1 "only" true) (by decide)
    rw [h.1 (by decide)]

theorem activeModelCount_eq_countP (tbl : List RecommenderModel) :
    activeModelCount tbl = tbl.countP (fun m => m.is_active) :=
  (List.countP_eq_length_filter ..).symm

/-- C1 counterexample: from a prior state with two active model rows, a
guardrail rollback completes with action `rollback` and leaves TWO rows
with `is_active = true` — the claim's "for every prior state" fails. -/
theorem C1_activation_invariant_counterexample :
    activeModelCount cexTwoActiveTable = 2 ∧
    (evaluate_guardrails scenarioParams scenarioInteractions cexTwoActiveTable
        ⟨[], 0⟩ 1000000 50 3).action = GuardrailAction.rollback ∧
    activeModelCount (evaluate_guardrails scenarioParams scenarioInteractions
        cexTwoActiveTable ⟨[], 0⟩ 1000000 50 3).models = 2 := by
  have hact : findActiveModel cexTwoActiveTable = some (mdlRow 3 "c" true) := by
    decide
  have hprev : findPreviousModel cexTwoActiveTable (mdlRow 3 "c" true) =
      some (mdlRow 2 "b" false) := by decide
  refine ⟨by decide, ?_, ?_⟩
  all_goals
    simp only [evaluate_guardrails, show scenarioParams.enabled = true from rfl,
      Bool.not_true, Bool.false_eq_true, if_false, scenario_metrics_unhealthy.1,
      scenario_metrics_unhealthy.2, hact, hprev]
  all_goals decide

/-- C1 amended: a completed training run leaves exactly one active model
row regardless of the prior state (given the unique-version constraint);
a guardrail rollback PRESERVES the at-most-one-active invariant (given
unique row ids) but does not establish it from arbitrary prior states. -/
theorem C1_activation_invariant_amended
    (tbl : List RecommenderModel) (version : String) (names : List String)
    (ws : List Rat) (nextId : Nat) (p : GuardrailParams)
    (rows : List Interaction) (store : JobStore) (now : Int) (topN : Int)
    (dflt : Nat) :
    ((tbl.map (fun m => m.model_version)).Nodup →
      activeModelCount (trainer_persist_model tbl version names ws nextId) = 1) ∧
    ((tbl.map (fun m => m.id)).Nodup → activeModelCount tbl ≤ 1 →
      activeModelCount
        (evaluate_guardrails p rows tbl store now topN dflt).models ≤ 1) := by
  constructor
  · intro hnd
    unfold trainer_persist_model
    by_cases hex : tbl.any (fun m => m.model_version == version)
    · rw [if_pos hex]
      rw [activeModelCount_eq_countP, List.countP_map]
      have hpt : ∀ m ∈ tbl,
          ((fun m : RecommenderModel => m.is_active) ∘ (fun m =>
            if m.model_version == version then
              { m with feature_names := names, weights := ws, is_active := true }
            else { m with is_active := false })) m = true ↔
            (m.model_version == version) = true := by
        intro m _
        by_cases hv : (m.model_version == version) = true
        · simp [Function.comp, hv]
        · rw [Bool.not_eq_true] at hv
          simp [Function.comp, hv]
      rw [List.countP_congr hpt]
      have hcnt : tbl.countP (fun m => m.model_version == version) =
          (tbl.map (fun m => m.model_version)).count version := by
        rw [List.count, List.countP_map]
        rfl
      rw [hcnt]
      obtain ⟨m, hm, hmv⟩ := List.any_eq_true.mp hex
      have hmemv : version ∈ tbl.map (fun m => m.model_version) := by
        rw [List.mem_map]
        exact ⟨m, hm, by simpa using hmv⟩
      exact List.count_eq_one_of_mem hnd hmemv
    · rw [if_neg hex]
      rw [activeModelCount_eq_countP, List.countP_append, List.countP_map]
      have hzero : tbl.countP ((fun m : RecommenderModel => m.is_active) ∘
          (fun m => { m with is_active := false })) = 0 := by
        rw [List.countP_eq_zero]
        intro m _
        simp [Function.comp]
      rw [hzero]
      rfl
  · intro hnd hle
    unfold evaluate_guardrails
    split
    · exact hle
    split
    · exact hle
    split
    · exact hle
    split
    · exact hle
    rename_i active hact
    split
    · exact hle
    rename_i previous hprev
    obtain ⟨hamem, hact2⟩ := findActiveModel_spec tbl active hact
    obtain ⟨hpmem, hplt⟩ := findPreviousModel_spec tbl active previous hprev
    have huniq : ∀ m ∈ tbl, m.is_active = true → m = active := by
      intro m hm hma
      have h1 : m ∈ tbl.filter (fun x => x.is_active) := by
        rw [List.mem_filter]
        exact ⟨hm, hma⟩
      have h2 : active ∈ tbl.filter (fun x => x.is_active) := by
        rw [List.mem_filter]
        exact ⟨hamem, hact2⟩
      have hlen : (tbl.filter (fun x => x.is_active)).length ≤ 1 := hle
      cases hf : tbl.filter (fun x => x.is_active) with
      | nil =>
        rw [hf] at h1
        cases h1
      | cons a l =>
        rw [hf] at h1 h2 hlen
        have hl : l = [] := by
          rw [List.length_cons] at hlen
          exact List.eq_nil_of_length_eq_zero (by omega)
        subst hl
        rw [List.mem_singleton] at h1 h2
        rw [h1, h2]
    show activeModelCount (tbl.map _) ≤ 1
    rw [activeModelCount_eq_countP, List.countP_map]
    have hpt : ∀ m ∈ tbl,
        ((fun m : RecommenderModel => m.is_active) ∘ (fun m =>
          if m.id == active.id then { m with is_active := false }
          else if m.id == previous.id then { m with is_active := true }
          else m)) m = true ↔ (m.id == previous.id) = true := by
      intro m hm
      by_cases hma : (m.id == active.id) = true
      · have hma2 : m.id = active.id := by simpa using hma
        have hne : (m.id == previous.id) = false := by
          rw [beq_eq_false_iff_ne]
          omega
        simp [Function.comp, hma, hne]
      · rw [Bool.not_eq_true] at hma
        by_cases hmp : (m.id == previous.id) = true
        · simp [Function.comp, hma, hmp]
        · rw [Bool.not_eq_true] at hmp
          have hmf : m.is_active = false := by
            by_contra hcon
            rw [Bool.not_eq_false] at hcon
            have hmeq := huniq m hm hcon
            subst hmeq
            simp at hma
          simp [Function.comp, hma, hmp, hmf]
    rw [List.countP_congr hpt]
    have hcnt : tbl.countP (fun m => m.id == previous.id) =
        (tbl.map (fun m => m.id)).count previous.id := by
      rw [List.count, List.countP_map]
      rfl
    rw [hcnt]
    exact List.nodup_iff_count_le_one.mp hnd previous.id

/-- Witness for C1: training over the two-model table yields exactly one
active row, and a rollback from the single-active table keeps at most one. -/
theorem C1_activation_invariant_witness :
    activeModelCount (trainer_persist_model scenarioTableWithPrev "v9"
      FEATURE_NAMES (List.replicate 8 0) 3) = 1 ∧
    activeModelCount (evaluate_guardrails scenarioParams scenarioInteractions
      scenarioTableNoPrev ⟨[], 0⟩ 1000000 50 3).models ≤ 1 := by
  obtain ⟨h1, h2⟩ := C1_activation_invariant_amended scenarioTableWithPrev "v9"
    FEATURE_NAMES (List.replicate 8 0) 3 scenarioParams scenarioInteractions
    ⟨[], 0⟩ 1000000 50 3
  refine ⟨h1 (by decide), ?_⟩
  obtain ⟨-, h4⟩ := C1_activation_invariant_amended scenarioTableNoPrev "v9"
    FEATURE_NAMES (List.replicate 8 0) 3 scenarioParams scenarioInteractions
    ⟨[], 0⟩ 1000000 50 3
  exact h4 (by decide) (by decide)

/-- C6 counterexample: with a persisted model whose feature names are
`["bias"]`, the score-only run exits 2 with no writes (that much of the
claim holds), but the containing queue job is re-queued by `process_job`
(status queued, attempts 1) — it DOES re-enter the retry/backoff schedule,
contrary to the claim's last part. -/
theorem C6_schema_mismatch_counterexample :
    skip_training_exit_code cexMismatchTable none = 2 ∧
    skip_training_reaches_writes cexMismatchTable none = false ∧
    (process_job (trainer_handlers cexMismatchTable) 0 3 cexJobC6).status =
      JobStatus.queued ∧
    (process_job (trainer_handlers cexMismatchTable) 0 3 cexJobC6).attempts = 1 ∧
    (process_job (trainer_handlers cexMismatchTable) 0 3 cexJobC6).status ≠
      JobStatus.failed := by decide

/-- C6 amended: a feature-schema mismatch on loading a persisted model is
fatal for that trainer run — exit code 2 (misconfiguration) before any
write — but the containing job treats the resulting non-zero exit like any
handler error: while attempts remain it is re-queued on the normal
retry/backoff schedule. -/
theorem C6_schema_mismatch_amended (tbl : List RecommenderModel)
    (req : Option String) (m : RecommenderModel)
    (hm : skip_training_select tbl req = some m)
    (hmis : m.feature_names ≠ FEATURE_NAMES)
    (j : BackgroundJob) (hjt : j.job_type = "recompute_recommendations_ml")
    (hskip : j.payload.skip_training = true)
    (hreq : j.payload.model_version = req)
    (now : Int) (dflt : Nat)
    (hretry : j.attempts + 1 < pyOrNat j.max_attempts dflt) :
    skip_training_exit_code tbl req = 2 ∧
    skip_training_reaches_writes tbl req = false ∧
    (process_job (trainer_handlers tbl) now dflt j).status = JobStatus.queued ∧
    (process_job (trainer_handlers tbl) now dflt j).attempts = j.attempts + 1 ∧
    (process_job (trainer_handlers tbl) now dflt j).run_at =
      now + (backoffSeconds (j.attempts + 1) : Nat) := by
  have hload : skip_training_load tbl req = .schemaMismatch m.feature_names := by
    unfold skip_training_load
    rw [hm]
    simp [hmis]
  have hexit : skip_training_exit_code tbl req = 2 := by
    unfold skip_training_exit_code
    rw [hload]
  have hwr : skip_training_reaches_writes tbl req = false := by
    unfold skip_training_reaches_writes
    rw [hload]
  have hdisp : dispatch_handler (trainer_handlers tbl) j =
      some (HandlerResult.err ("trainer_failed exit_code=" ++ toString 2)) := by
    simp [dispatch_handler, trainer_handlers, allOkHandlers, hjt,
      recompute_handler, hskip, hreq, hexit, run_trainer_subprocess]
  have hpj : process_job (trainer_handlers tbl) now dflt j =
      mark_job_failed now dflt j ("trainer_failed exit_code=" ++ toString 2) := by
    unfold process_job process_job_body
    rw [hdisp]
  refine ⟨hexit, hwr, ?_, ?_, ?_⟩ <;>
    · rw [hpj]
      simp only [mark_job_failed, if_pos hretry]

/-- Witness for C6 at the concrete mismatched table and score-only job. -/
theorem C6_schema_mismatch_amended_witness :
    skip_training_exit_code cexMismatchTable none = 2 ∧
    (process_job (trainer_handlers cexMismatchTable) 5 3 cexJobC6).status =
      JobStatus.queued := by
  obtain ⟨h1, -, h3, -⟩ := C6_schema_mismatch_amended cexMismatchTable none
    { id := 1, model_version := "m1", feature_names := ["bias"], weights := [0],
      is_active := true }
    (by decide) (by decide) cexJobC6 rfl rfl rfl 5 3 (by decide)
  exact ⟨h1, h3⟩

theorem historyStep_acc_subset (events : List (Nat × EventFeatures)) :
    ∀ (l : List Nat) (acc : HistoryFeatures),
      acc.tags ⊆ (l.foldl (historyStep events) acc).tags ∧
      acc.categories ⊆ (l.foldl (historyStep events) acc).categories ∧
      acc.organizers ⊆ (l.foldl (historyStep events) acc).organizers := by
  intro l
  induction l with
  | nil =>
    intro acc
    exact ⟨Finset.Subset.refl _, Finset.Subset.refl _, Finset.Subset.refl _⟩
  | cons y l ih =>
    intro acc
    rw [List.foldl_cons]
    obtain ⟨iht, ihc, iho⟩ := ih (historyStep events acc y)
    have hstep : acc.tags ⊆ (historyStep events acc y).tags ∧
        acc.categories ⊆ (historyStep events acc y).categories ∧
        acc.organizers ⊆ (historyStep events acc y).organizers := by
      unfold historyStep
      cases events.lookup y with
      | none => exact ⟨Finset.Subset.refl _, Finset.Subset.refl _, Finset.Subset.refl _⟩
      | some ev =>
        dsimp only
        refine ⟨Finset.subset_union_left, ?_, Finset.subset_insert _ _⟩
        cases ev.category with
        | none => exact Finset.Subset.refl _
        | some c =>
          dsimp only
          by_cases hc : c ≠ ""
          · rw [if_pos hc]
            exact Finset.subset_insert _ _
          · rw [if_neg hc]
    exact ⟨hstep.1.trans iht, hstep.2.1.trans ihc, hstep.2.2.trans iho⟩

theorem buildHistory_mem_contributes (events : List (Nat × EventFeatures)) :
    ∀ (l : List Nat) (acc : HistoryFeatures) (eid : Nat) (ev : EventFeatures),
      eid ∈ l → events.lookup eid = some ev →
      ev.tags ⊆ (l.foldl (historyStep events) acc).tags ∧
      (∀ c, ev.category = some c → c ≠ "" →
        c ∈ (l.foldl (historyStep events) acc).categories) ∧
      ev.owner_id ∈ (l.foldl (historyStep events) acc).organizers := by
  intro l
  induction l with
  | nil =>
    intro acc eid ev hmem
    cases hmem
  | cons y l ih =>
    intro acc eid ev hmem hlook
    rw [List.foldl_cons]
    rcases List.mem_cons.mp hmem with heq | hmem2
    · subst heq
      have hstep : ev.tags ⊆ (historyStep events acc eid).tags ∧
          (∀ c, ev.category = some c → c ≠ "" →
            c ∈ (historyStep events acc eid).categories) ∧
          ev.owner_id ∈ (historyStep events acc eid).organizers := by
        unfold historyStep
        rw [hlook]
        dsimp only
        refine ⟨Finset.subset_union_right, ?_, Finset.mem_insert_self _ _⟩
        intro c hc hne
        rw [hc]
        dsimp only
        rw [if_pos hne]
        exact Finset.mem_insert_self _ _
      obtain ⟨iht, ihc, iho⟩ := historyStep_acc_subset events l (historyStep events acc eid)
      exact ⟨hstep.1.trans iht, fun c hc hne => ihc (hstep.2.1 c hc hne),
        iho hstep.2.2⟩
    · exact ih (historyStep events acc y) eid ev hmem2 hlook

/-- C7 counterexample: a user positive on events 1 (tag `a`) and 2 (tag
`b`), with event 2 held out: the held-out event is removed from the
training positives, yet its tag `b` (and organizer 200) still lands in the
history sets — the claim's exclusion of the held-out event from its own
training history fails. -/
theorem C7_holdout_history_counterexample :
    (build_student cexEventsC7 cexPositivesC7 1).holdout = some 2 ∧
    ((build_student cexEventsC7 cexPositivesC7 1).trainingPositives.map
      (fun p => p.1)) = [1] ∧
    "b" ∈ (build_student cexEventsC7 cexPositivesC7 1).history.tags ∧
    (200 : Int) ∈ (build_student cexEventsC7 cexPositivesC7 1).history.organizers ∧
    (buildHistory cexEventsC7 [1]).tags = {"a"} := by decide

/-- C7 amended: for a user with at least two positives, exactly one
positive event is held out and removed from the training positives, but
the history sets are built from the pre-pop positive list, so the held-out
event's tags, category and organizer still contribute to the user's
history features. -/
theorem C7_holdout_amended (events : List (Nat × EventFeatures))
    (positives : List (Nat × Rat)) (idx : Nat)
    (hlen : 2 ≤ positives.length) (hidx : idx < positives.length)
    (hnd : (positives.map (fun p => p.1)).Nodup) :
    ∃ h, (build_student events positives idx).holdout = some h ∧
      h ∈ positives.map (fun p => p.1) ∧
      (build_student events positives idx).trainingPositives =
        positives.filter (fun p => p.1 ≠ h) ∧
      (build_student events positives idx).trainingPositives.length + 1 =
        positives.length ∧
      (build_student events positives idx).history =
        buildHistory events (positives.map (fun p => p.1)) ∧
      (∀ ev, events.lookup h = some ev →
        ev.tags ⊆ (build_student events positives idx).history.tags ∧
        (∀ c, ev.category = some c → c ≠ "" →
          c ∈ (build_student events positives idx).history.categories) ∧
        ev.owner_id ∈ (build_student events positives idx).history.organizers) := by
  have hplen : (positives.map (fun p => p.1)).length = positives.length :=
    List.length_map ..
  have hidx2 : idx < (positives.map (fun p => p.1)).length := by omega
  set h := (positives.map (fun p => p.1)).get ⟨idx, hidx2⟩ with hh
  have hmemh : h ∈ positives.map (fun p => p.1) := List.get_mem ..
  have hhold : (build_student events positives idx).holdout = some h := by
    unfold build_student pickHoldout
    dsimp only
    rw [if_pos (show 2 ≤ (List.map (fun p : Nat × Rat => p.1) positives).length by omega),
      List.get?_eq_get hidx2]
  refine ⟨h, hhold, hmemh, ?_, ?_, rfl, ?_⟩
  · unfold build_student popHoldout pickHoldout
    dsimp only
    rw [if_pos (show 2 ≤ (List.map (fun p : Nat × Rat => p.1) positives).length by omega),
      List.get?_eq_get hidx2]
  · have hcount : positives.countP (fun p => p.1 == h) = 1 := by
      have heq : positives.countP (fun p => p.1 == h) =
          (positives.map (fun p => p.1)).count h := by
        rw [List.count, List.countP_map]
        rfl
      rw [heq]
      exact List.count_eq_one_of_mem hnd hmemh
    have hfly : (build_student events positives idx).trainingPositives =
        positives.filter (fun p => !(p.1 == h)) := by
      unfold build_student popHoldout pickHoldout
      dsimp only
      rw [if_pos (show 2 ≤ (List.map (fun p : Nat × Rat => p.1) positives).length by omega),
        List.get?_eq_get hidx2]
      refine List.filter_congr (fun p _ => ?_)
      by_cases hp : p.1 = h
      · simp [hp, hh]
      · have hne : p.1 ≠ positives[idx].1 := by simpa [hh] using hp
        simp [hp, hh, hne]
    rw [hfly]
    have hsplit := List.length_eq_countP_add_countP
      (fun p : Nat × Rat => p.1 == h) positives
    have hc2 : positives.countP (fun p => decide ¬(p.1 == h) = true) =
        (positives.filter (fun p => !(p.1 == h))).length := by
      rw [← List.countP_eq_length_filter]
      exact List.countP_congr (fun p _ => by by_cases hp : p.1 = h <;> simp [hp])
    omega
  · intro ev hlook
    exact buildHistory_mem_contributes events (positives.map (fun p => p.1))
      {} h ev hmemh hlook

/-- Witness for C7 at the concrete two-event user. -/
theorem C7_holdout_amended_witness :
    ∃ h, (build_student cexEventsC7 cexPositivesC7 1).holdout = some h ∧
      (build_student cexEventsC7 cexPositivesC7 1).trainingPositives.length + 1 =
        cexPositivesC7.length := by
  obtain ⟨h, h1, -, -, h4, -⟩ := C7_holdout_amended cexEventsC7 cexPositivesC7 1
    (by decide) (by decide) (by decide)
  exact ⟨h, h1, h4⟩

/-- C8: on a new signal at `t0 + Δt` the stored score is first decayed to
`S * exp(-(ln 2 / H) * Δt)` (the update then adds the fresh delta and
clamps); at `Δt = H` the decayed score is exactly `S / 2` in real
arithmetic; and for `Δt ≤ 0` decay leaves the score unchanged. -/
theorem C8_decay_correctness (H S t0 dt maxS delta : ℝ) (hH : 0 < H) :
    (0 < dt →
      _decay (decay_lambda H) (t0 + dt) S t0 =
        S * Real.exp (-(Real.log 2 / H * dt)) ∧
      updated_score maxS (decay_lambda H) (t0 + dt) S t0 delta =
        min maxS (S * Real.exp (-(Real.log 2 / H * dt)) + delta)) ∧
    (dt = H → _decay (decay_lambda H) (t0 + dt) S t0 = S / 2) ∧
    (dt ≤ 0 → _decay (decay_lambda H) (t0 + dt) S t0 = S) := by
  have hds : t0 + dt - t0 = dt := by ring
  refine ⟨?_, ?_, ?_⟩
  · intro hdt
    have h1 : _decay (decay_lambda H) (t0 + dt) S t0 =
        S * Real.exp (-(Real.log 2 / H * dt)) := by
      unfold _decay decay_lambda
      dsimp only
      rw [hds, if_neg (by linarith)]
    refine ⟨h1, ?_⟩
    unfold updated_score
    rw [h1]
  · intro hdtH
    subst hdtH
    unfold _decay decay_lambda
    dsimp only
    rw [show t0 + dt - t0 = dt from by ring, if_neg (by linarith)]
    rw [div_mul_cancel₀ _ (ne_of_gt hH)]
    rw [Real.exp_neg, Real.exp_log (by norm_num : (0:ℝ) < 2)]
    ring
  · intro hle
    unfold _decay
    dsimp only
    rw [hds, if_pos hle]

/-- Witness for C8: with `H = 1`, `S = 1`, a signal one half-life later
decays the score to `1/2`, and a non-positive elapsed time leaves it at 1. -/
theorem C8_decay_correctness_witness :
    _decay (decay_lambda 1) (0 + 1) 1 0 = 1 / 2 ∧
    _decay (decay_lambda 1) (0 + (-1)) 1 0 = 1 := by
  have h := C8_decay_correctness 1 1 0 1 10 0 one_pos
  have h2 := C8_decay_correctness 1 1 0 (-1) 10 0 one_pos
  exact ⟨h.2.1 rfl, h2.2.2 (by norm_num)⟩

/-- C9: `_build_feature_vector` returns exactly the 8-element vector of
the spec's formulas in the fixed order (bias, overlap ratios, same_city,
category_match, organizer_match, `min(log1p(seats)/5, 1)`, days-until-start
scaled by 180 and clamped to [0, 1]); and in Scenario B the user whose
only signal is one registration on E1 (tags `{rock}`) gets
`overlap_history_ratio = 1` on E1 against the resulting history. -/
theorem C9_feature_vector (user : UserFeatures) (event : EventFeatures)
    (now st : ℝ) (hst : event.start_time = some st) :
    _build_feature_vector user event now = specFeatureVector user event now st ∧
    (_build_feature_vector user event now).length = 8 ∧
    (_build_feature_vector user event now).get? 2 =
      some (((user.history_tags ∩ event.tags).card : ℝ) /
        ((max 1 event.tags.card : Nat) : ℝ)) ∧
    (_build_feature_vector scenarioBUser eventE1 0).get? 2 = some 1 := by
  have hclamp : ∀ x : ℝ, max 0 (min x 1) = min 1 (max 0 x) := fun x => by
    rw [max_min_distrib_left, min_comm]
    norm_num
  refine ⟨?_, ?_, ?_, ?_⟩
  · unfold _build_feature_vector specFeatureVector
    rw [hst]
    dsimp only
    rw [hclamp]
  · unfold _build_feature_vector
    dsimp only
    rfl
  · unfold _build_feature_vector
    dsimp only
    rfl
  · have hget : (_build_feature_vector scenarioBUser eventE1 0).get? 2 =
        some (((scenarioBUser.history_tags ∩ eventE1.tags).card : ℝ) /
          ((max 1 eventE1.tags.card : Nat) : ℝ)) := by
      unfold _build_feature_vector
      dsimp only
      rfl
    rw [hget]
    have h1 : (scenarioBUser.history_tags ∩ eventE1.tags).card = 1 := by decide
    have h2 : max 1 eventE1.tags.card = 1 := by decide
    rw [h1, h2]
    norm_num

/-- Witness for C9 at a concrete event with a start time. -/
theorem C9_feature_vector_witness :
    _build_feature_vector {} witnessEventC9 0 =
      specFeatureVector {} witnessEventC9 0 100 ∧
    (_build_feature_vector scenarioBUser eventE1 0).get? 2 = some 1 := by
  have h := C9_feature_vector {} witnessEventC9 0 100 rfl
  exact ⟨h.1, h.2.2.2⟩
